import Mathlib

/-!
Verification development for the core of the ciao mDNS/DNS-SD library
(RFC 6762 / RFC 6763): the DNS packet builder (src/coder/DNSPacket.ts),
the response queueing layer (src/responder/QueuedResponse.ts) and the
probing state machine (Prober).

The development is a shallow embedding: each TypeScript function that the
claims touch is translated into an executable Lean definition, mutation
becoming explicit state passing.  The record/label codec layer
(DNSLabelCoder, Question, ResourceRecord) is not part of the sources in
scope and is modelled from the specification where needed.
-/

namespace Ciao

/-- Modelled from the spec: DNSLabelCoder, Question and ResourceRecord are
not among the sources in scope (only DNSPacket.ts is).  Per spec section 4.1/4.2
every record exposes its encoded length under a given label coder; the
non-compressing coder yields an upper bound (the uncompressed length) and the
compressing coder yields the real length.  A record (question or resource
record) is therefore abstracted by those two lengths, the per-record
compressed length being taken as context free. -/
structure Rcd where
  uncompLen : Nat
  compLen : Nat
deriving DecidableEq

/-- Packet flags, mirroring the PacketFlags interface of DNSPacket.ts
(absent optional fields are modelled as false). -/
structure PacketFlags where
  authoritativeAnswer : Bool := false
  truncation : Bool := false
  recursionDesired : Bool := false
  recursionAvailable : Bool := false
  zero : Bool := false
  authenticData : Bool := false
  checkingDisabled : Bool := false
deriving DecidableEq

/-- The DNSPacket state: header fields, the four record sections and the
length-cache fields (estimatedEncodingLength, lastCalculatedLength,
lengthDirty) of class DNSPacket. -/
structure Pkt where
  id : Nat := 0
  legacyUnicastEncoding : Bool := false
  type : Nat := 0
  opcode : Nat := 0
  flags : PacketFlags := {}
  rcode : Nat := 0
  questions : List Rcd := []
  answers : List Rcd := []
  authorities : List Rcd := []
  additionals : List Rcd := []
  estimatedEncodingLength : Nat := 0
  lastCalculatedLength : Nat := 0
  lengthDirty : Bool := true
deriving DecidableEq

/-- DNS_PACKET_HEADER_SIZE of DNSPacket.ts. -/
def DNS_PACKET_HEADER_SIZE : Nat := 12

def sumUncomp (l : List Rcd) : Nat := (l.map Rcd.uncompLen).sum

def sumComp (l : List Rcd) : Nat := (l.map Rcd.compLen).sum

/-- Body of getEstimatedEncodingLength when the cache is empty: header size
plus the NonCompressionLabelCoder length of every record of the four
sections. -/
def computeEstimatedLength (p : Pkt) : Nat :=
  DNS_PACKET_HEADER_SIZE + sumUncomp p.questions + sumUncomp p.answers
    + sumUncomp p.authorities + sumUncomp p.additionals

/-- Body of getEncodingLength with a fresh label coder: header size plus the
compressed length of every record of the four sections. -/
def computeRealLength (p : Pkt) : Nat :=
  DNS_PACKET_HEADER_SIZE + sumComp p.questions + sumComp p.answers
    + sumComp p.authorities + sumComp p.additionals

/-- DNSPacket.getEstimatedEncodingLength: return the cached estimate when it
is non-zero (JS truthiness), otherwise compute it and fill the cache.
Returns the length together with the updated packet. -/
def getEstimatedEncodingLength (p : Pkt) : Nat × Pkt :=
  if p.estimatedEncodingLength ≠ 0 then (p.estimatedEncodingLength, p)
  else
    let l := computeEstimatedLength p
    (l, { p with estimatedEncodingLength := l })

/-- DNSPacket.getEncodingLength (called with no coder, hence a fresh label
coder): return the cached value when the dirty flag is clear, otherwise
recompute, clear the flag and update both caches. -/
def getEncodingLengthFresh (p : Pkt) : Nat × Pkt :=
  if p.lengthDirty = false then (p.lastCalculatedLength, p)
  else
    let l := computeRealLength p
    (l, { p with lengthDirty := false, lastCalculatedLength := l,
                 estimatedEncodingLength := l })

/-- Net effect on the estimate cache of DNSPacket.addRecords: for each added
record the estimate is bumped only when it is currently non-zero. -/
def bumpEstimate (est : Nat) : List Rcd → Nat
  | [] => est
  | r :: rs => bumpEstimate (if est = 0 then est else est + r.uncompLen) rs

/-- DNSPacket.addQuestions (via addRecords): append the records, bump the
estimate cache per record, set the dirty flag when at least one record was
added. -/
def addQuestions (p : Pkt) (l : List Rcd) : Pkt :=
  { p with questions := p.questions ++ l,
           estimatedEncodingLength := bumpEstimate p.estimatedEncodingLength l,
           lengthDirty := if l.isEmpty then p.lengthDirty else true }

/-- DNSPacket.addAnswers (via addRecords). -/
def addAnswers (p : Pkt) (l : List Rcd) : Pkt :=
  { p with answers := p.answers ++ l,
           estimatedEncodingLength := bumpEstimate p.estimatedEncodingLength l,
           lengthDirty := if l.isEmpty then p.lengthDirty else true }

/-- DNSPacket.addAuthorities (via addRecords). -/
def addAuthorities (p : Pkt) (l : List Rcd) : Pkt :=
  { p with authorities := p.authorities ++ l,
           estimatedEncodingLength := bumpEstimate p.estimatedEncodingLength l,
           lengthDirty := if l.isEmpty then p.lengthDirty else true }

/-- DNSPacket.addAdditionals (via addRecords). -/
def addAdditionals (p : Pkt) (l : List Rcd) : Pkt :=
  { p with additionals := p.additionals ++ l,
           estimatedEncodingLength := bumpEstimate p.estimatedEncodingLength l,
           lengthDirty := if l.isEmpty then p.lengthDirty else true }

/-- DNSPacket.setLegacyUnicastEncoding: sets the dirty flag when the flag
value changes. -/
def setLegacyUnicastEncoding (p : Pkt) (b : Bool) : Pkt :=
  { p with lengthDirty := if p.legacyUnicastEncoding ≠ b then true else p.lengthDirty,
           legacyUnicastEncoding := b }

/-- new DNSPacket of type QUERY holding only the given questions (the
primary packet of createDNSQueryPackets). -/
def mkQueryPkt (questions : List Rcd) : Pkt :=
  { type := 0, questions := questions }

/-- new DNSPacket of type QUERY with no records (a continuation packet of
createDNSQueryPackets). -/
def newQueryPacket : Pkt := { type := 0 }

/-- Query definitions accepted by createDNSQueryPackets: a plain query with
known-answers, or a probe query with authorities (sections that the source
allows to be undefined are modelled as present, possibly empty, lists:
every claim concerns definitions that carry the section). -/
inductive QueryDef
  | query (questions : List Rcd) (answers : List Rcd)
  | probe (questions : List Rcd) (authorities : List Rcd)

/-- Stable ascending insertion by uncompressed encoded length; an element is
inserted after all elements of smaller-or-equal length. -/
def insertByLen (r : Rcd) : List Rcd → List Rcd
  | [] => [r]
  | x :: xs => if x.uncompLen ≤ r.uncompLen then x :: insertByLen r xs else r :: x :: xs

/-- The answers.sort of createDNSQueryPackets: JS Array.prototype.sort is
stable, so the sort is modelled as stable insertion sort, ascending on the
NonCompressionLabelCoder encoding length. -/
def sortByLen (l : List Rcd) : List Rcd := l.foldl (fun acc r => insertByLen r acc) []

/-- State of the known-answer loop of createDNSQueryPackets.  main is the
variable named packet (the primary packet, also packets[0]); done are the
continuation packets already truncated; cur is the current continuation
packet, none meaning that currentPacket still aliases packet; i is the loop
index into the sorted answers. -/
structure QState where
  main : Pkt
  done : List Pkt
  cur : Option Pkt
  i : Nat
deriving DecidableEq

/-- The packet currently referred to by the currentPacket variable. -/
def QState.current (s : QState) : Pkt :=
  match s.cur with
  | none => s.main
  | some c => c

/-- currentPacket.addAnswers(answer): when currentPacket aliases packet the
addition lands on main. -/
def addToCurrent (s : QState) (answer : Rcd) : QState :=
  match s.cur with
  | none => { s with main := addAnswers s.main [answer] }
  | some c => { s with cur := some (addAnswers c [answer]) }

/-- The inner for loop of the known-answer loop (DNSPacket.ts lines
231-254), fuelled by the number of remaining answers.  Per iteration the
size checks are made against the packet variable (the primary packet) while
the record is appended to currentPacket; when neither the estimated nor the
real size check passes, the loop breaks, after first appending the answer
to the packet variable when currentPacket holds no questions and no answers
(the RFC 6762 section 17 carve-out branch).  The break leaves the index
unchanged, exactly as the source for loop does. -/
def innerLoopF (cap : Nat) (answers : List Rcd) : Nat → QState → QState
  | 0, s => s
  | fuel + 1, s =>
    if h : s.i < answers.length then
      let answer := answers.get ⟨s.i, h⟩
      let estimatedSize := answer.uncompLen
      let r1 := getEstimatedEncodingLength s.main
      let s1 : QState := { s with main := r1.2 }
      if r1.1 + estimatedSize ≤ cap then
        innerLoopF cap answers fuel { (addToCurrent s1 answer) with i := s.i + 1 }
      else
        let r2 := getEncodingLengthFresh r1.2
        let s2 : QState := { s with main := r2.2 }
        if r2.1 + estimatedSize ≤ cap then
          innerLoopF cap answers fuel { (addToCurrent s2 answer) with i := s.i + 1 }
        else
          if s2.current.questions.isEmpty ∧ s2.current.answers.isEmpty then
            { s2 with main := addAnswers s2.main [answer] }
          else s2
    else s

/-- Lines 256-260 of DNSPacket.ts: mark currentPacket truncated and start a
fresh continuation packet (the truncation flag is written directly on the
flags object, leaving the length caches untouched, as the source does). -/
def setTruncationFlag (p : Pkt) : Pkt :=
  { p with flags := { p.flags with truncation := true } }

def truncateAndNew (s : QState) : QState :=
  match s.cur with
  | none => { s with main := setTruncationFlag s.main, cur := some newQueryPacket }
  | some c => { s with done := s.done ++ [setTruncationFlag c], cur := some newQueryPacket }

/-- The outer while loop of the known-answer loop.  The source loop need not
terminate, so it is fuelled: none means the fuel ran out while the loop
condition still held. -/
def queryLoop (cap : Nat) (answers : List Rcd) : Nat → QState → Option QState
  | 0, s => if s.i < answers.length then none else some s
  | fuel + 1, s =>
    if s.i < answers.length then
      let s' := innerLoopF cap answers (answers.length - s.i) s
      if s'.i < answers.length then queryLoop cap answers fuel (truncateAndNew s')
      else some s'
    else some s

/-- Lines 209-215 of createDNSQueryPackets: when the estimated size of the
questions-only packet exceeds the cap, fall back to the real length; when
that still exceeds the cap, assert.fail (modelled as an error). -/
def initialCheck (p : Pkt) (cap : Nat) : Except Unit Pkt :=
  let r1 := getEstimatedEncodingLength p
  if r1.1 > cap then
    let r2 := getEncodingLengthFresh r1.2
    if r2.1 > cap then Except.error () else Except.ok r2.2
  else Except.ok r1.2

/-- DNSPacket.createDNSQueryPackets.  The result is none when the fuel ran
out (the loop had not terminated), some (Except.error ()) when an
assert.fail was reached, and some (Except.ok packets) on normal return.
The returned list is packets: the primary packet followed by the
continuation packets in creation order. -/
def createDNSQueryPackets (d : QueryDef) (cap fuel : Nat) : Option (Except Unit (List Pkt)) :=
  match d with
  | .query questions answers =>
    match initialCheck (mkQueryPkt questions) cap with
    | .error _ => some (.error ())
    | .ok packet =>
      let sorted := sortByLen answers
      (queryLoop cap sorted fuel { main := packet, done := [], cur := none, i := 0 }).map
        (fun s => Except.ok (s.main :: (s.done ++ s.cur.toList)))
  | .probe questions authorities =>
    match initialCheck (mkQueryPkt questions) cap with
    | .error _ => some (.error ())
    | .ok packet =>
      let packet := addAuthorities packet authorities
      let r := getEncodingLengthFresh packet
      if r.1 > cap then some (.error ()) else some (.ok [r.2])

/-- When the answer under scrutiny is itself larger than the payload cap,
one pass of the inner for loop cannot advance the index: both size checks
fail whatever the state of the primary packet, and every break branch keeps
the index unchanged. -/
theorem innerLoopF_stuck (cap : Nat) (answers : List Rcd) (fuel : Nat) (s : QState)
    (h : s.i < answers.length) (hbig : cap < (answers.get ⟨s.i, h⟩).uncompLen) :
    (innerLoopF cap answers fuel s).i = s.i := by
  cases fuel with
  | zero => rfl
  | succ fuel =>
    rw [innerLoopF, dif_pos h]
    rw [if_neg (by omega)]
    rw [if_neg (by omega)]
    split <;> rfl

/-- When the answer at the current index is larger than the payload cap the
outer while loop never terminates: the inner loop cannot advance the index
and the while loop spins, so every fuel value is exhausted. -/
theorem queryLoop_stuck (cap : Nat) (answers : List Rcd) :
    ∀ (fuel : Nat) (s : QState) (h : s.i < answers.length),
      cap < (answers.get ⟨s.i, h⟩).uncompLen → queryLoop cap answers fuel s = none := by
  intro fuel
  induction fuel with
  | zero => intro s h hbig; rw [queryLoop, if_pos h]
  | succ fuel ih =>
    intro s h hbig
    rw [queryLoop, if_pos h]
    have hstep : (innerLoopF cap answers (answers.length - s.i) s).i = s.i :=
      innerLoopF_stuck cap answers _ s h hbig
    rw [if_pos (by rw [hstep]; exact h)]
    have htr : (truncateAndNew (innerLoopF cap answers (answers.length - s.i) s)).i = s.i := by
      rw [truncateAndNew]
      split <;> simpa using hstep
    exact ih _ (by rw [htr]; exact h) (by simpa [htr] using hbig)

/-- DNSPacket.canBeCombinedWith: the packet headers must be identical (id,
type, opcode, flags via deepEqual, rcode) and the two real encoding lengths
must sum to at most the payload cap.  The length getters mutate the length
caches, so the updated packets are returned alongside the boolean (self is
the receiver, pkt the argument, as in the source). -/
def canBeCombinedWith (self pkt : Pkt) (cap : Nat) : Bool × Pkt × Pkt :=
  if self.id = pkt.id ∧ self.type = pkt.type ∧ self.opcode = pkt.opcode
      ∧ self.flags = pkt.flags ∧ self.rcode = pkt.rcode then
    let r1 := getEncodingLengthFresh self
    let r2 := getEncodingLengthFresh pkt
    (decide (r1.1 + r2.1 ≤ cap), r1.2, r2.2)
  else (false, self, pkt)

/-- DNSPacket.combineWith: the receiver absorbs the argument, ORing the
legacy-unicast flags and appending the four record sections. -/
def combineWith (self other : Pkt) : Pkt :=
  let s := setLegacyUnicastEncoding self (self.legacyUnicastEncoding || other.legacyUnicastEncoding)
  let s := addQuestions s other.questions
  let s := addAnswers s other.answers
  let s := addAuthorities s other.authorities
  addAdditionals s other.additionals

/-- A packet whose length caches tell the truth: whenever the dirty flag is
clear the cached last computed length is the real encoding length.  The
caches of every packet the codebase builds satisfy this, since every
mutation sets the dirty flag. -/
def cacheConsistent (p : Pkt) : Prop :=
  p.lengthDirty = false → p.lastCalculatedLength = computeRealLength p

instance (p : Pkt) : Decidable (cacheConsistent p) := by
  unfold cacheConsistent; infer_instance

/-- The combination condition exactly as the claim words it: same id, same
QR/type, same opcode, same rcode, equal flags, and combined real
(compressed) encoded length at most the cap. -/
def canCombineSpec (a b : Pkt) (cap : Nat) : Prop :=
  a.id = b.id ∧ a.type = b.type ∧ a.opcode = b.opcode ∧ a.rcode = b.rcode
    ∧ a.flags = b.flags ∧ computeRealLength a + computeRealLength b ≤ cap

theorem getEncodingLengthFresh_val (p : Pkt) (h : cacheConsistent p) :
    (getEncodingLengthFresh p).1 = computeRealLength p := by
  unfold getEncodingLengthFresh
  split
  · next hclean => simpa using h hclean
  · rfl

theorem getEncodingLengthFresh_sections (p : Pkt) :
    (getEncodingLengthFresh p).2.questions = p.questions ∧
    (getEncodingLengthFresh p).2.answers = p.answers ∧
    (getEncodingLengthFresh p).2.authorities = p.authorities ∧
    (getEncodingLengthFresh p).2.additionals = p.additionals := by
  unfold getEncodingLengthFresh
  split <;> simp

theorem combineWith_sections (x y : Pkt) :
    (combineWith x y).questions = x.questions ++ y.questions ∧
    (combineWith x y).answers = x.answers ++ y.answers ∧
    (combineWith x y).authorities = x.authorities ++ y.authorities ∧
    (combineWith x y).additionals = x.additionals ++ y.additionals ∧
    (combineWith x y).legacyUnicastEncoding = (x.legacyUnicastEncoding || y.legacyUnicastEncoding) := by
  refine ⟨?_, ?_, ?_, ?_, ?_⟩ <;>
    simp [combineWith, addQuestions, addAnswers, addAuthorities, addAdditionals,
      setLegacyUnicastEncoding]

theorem canBeCombinedWith_sections (x y : Pkt) (cap : Nat) :
    ((canBeCombinedWith x y cap).2.1.questions = x.questions ∧
     (canBeCombinedWith x y cap).2.1.answers = x.answers ∧
     (canBeCombinedWith x y cap).2.1.authorities = x.authorities ∧
     (canBeCombinedWith x y cap).2.1.additionals = x.additionals) ∧
    ((canBeCombinedWith x y cap).2.2.questions = y.questions ∧
     (canBeCombinedWith x y cap).2.2.answers = y.answers ∧
     (canBeCombinedWith x y cap).2.2.authorities = y.authorities ∧
     (canBeCombinedWith x y cap).2.2.additionals = y.additionals) := by
  unfold canBeCombinedWith
  split
  · dsimp only
    exact ⟨⟨(getEncodingLengthFresh_sections x).1, (getEncodingLengthFresh_sections x).2.1,
        (getEncodingLengthFresh_sections x).2.2.1, (getEncodingLengthFresh_sections x).2.2.2⟩,
      (getEncodingLengthFresh_sections y).1, (getEncodingLengthFresh_sections y).2.1,
        (getEncodingLengthFresh_sections y).2.2.1, (getEncodingLengthFresh_sections y).2.2.2⟩
  · simp

/-- C5: canBeCombinedWith returns true exactly under the spec condition
(identical id, QR, opcode, rcode, flags and summed real length within the
cap), for packets whose length caches are consistent; and combineWith
concatenates the four record sections and ORs the legacy-unicast flags. -/
theorem canBeCombinedWith_iff_and_combine (a b : Pkt) (cap : Nat)
    (ha : cacheConsistent a) (hb : cacheConsistent b) :
    ((canBeCombinedWith a b cap).1 = true ↔ canCombineSpec a b cap) ∧
    (combineWith a b).questions = a.questions ++ b.questions ∧
    (combineWith a b).answers = a.answers ++ b.answers ∧
    (combineWith a b).authorities = a.authorities ++ b.authorities ∧
    (combineWith a b).additionals = a.additionals ++ b.additionals ∧
    (combineWith a b).legacyUnicastEncoding = (a.legacyUnicastEncoding || b.legacyUnicastEncoding) := by
  refine ⟨?_, ?_, ?_, ?_, ?_, ?_⟩
  · unfold canBeCombinedWith canCombineSpec
    split
    · next hhead =>
      dsimp only
      rw [getEncodingLengthFresh_val a ha, getEncodingLengthFresh_val b hb]
      simp only [decide_eq_true_eq]
      constructor
      · intro hlen
        exact ⟨hhead.1, hhead.2.1, hhead.2.2.1, hhead.2.2.2.2, hhead.2.2.2.1, hlen⟩
      · intro hs
        exact hs.2.2.2.2.2
    · next hhead =>
      constructor
      · intro hfalse; exact absurd hfalse (by simp)
      · intro hs
        exact absurd ⟨hs.1, hs.2.1, hs.2.2.1, hs.2.2.2.2.1, hs.2.2.2.1⟩ hhead
  · exact (combineWith_sections a b).1
  · exact (combineWith_sections a b).2.1
  · exact (combineWith_sections a b).2.2.1
  · exact (combineWith_sections a b).2.2.2.1
  · exact (combineWith_sections a b).2.2.2.2

/-- Sample packets for the concrete witnesses of the response-queue claims:
two freshly built response packets with identical headers and one answer
each. -/
def samplePktA : Pkt := { type := 1, answers := [⟨30, 30⟩] }

def samplePktB : Pkt := { type := 1, answers := [⟨40, 40⟩] }

theorem canBeCombinedWith_iff_and_combine_witness :
    (cacheConsistent samplePktA ∧ cacheConsistent samplePktB) ∧
    (((canBeCombinedWith samplePktA samplePktB 1440).1 = true ↔
        canCombineSpec samplePktA samplePktB 1440) ∧
      (combineWith samplePktA samplePktB).questions = samplePktA.questions ++ samplePktB.questions ∧
      (combineWith samplePktA samplePktB).answers = samplePktA.answers ++ samplePktB.answers ∧
      (combineWith samplePktA samplePktB).authorities
          = samplePktA.authorities ++ samplePktB.authorities ∧
      (combineWith samplePktA samplePktB).additionals
          = samplePktA.additionals ++ samplePktB.additionals ∧
      (combineWith samplePktA samplePktB).legacyUnicastEncoding
          = (samplePktA.legacyUnicastEncoding || samplePktB.legacyUnicastEncoding)) :=
  ⟨by decide,
    canBeCombinedWith_iff_and_combine samplePktA samplePktB 1440 (by decide) (by decide)⟩

/-- QueuedResponse of src/responder/QueuedResponse.ts: the packet, its
interface, the epoch-millisecond creation time, the estimated send time and
delay set by calculateRandomDelay, whether a timer handle is held, and the
delayed (cancelled) marker.  Times are modelled as integer milliseconds. -/
structure QueuedResponse where
  packet : Pkt
  interfaceName : String
  timeOfCreation : Int
  estimatedTimeToBeSent : Int := 0
  delay : Int := -1
  timerSet : Bool := false
  delayed : Bool := false
deriving DecidableEq

/-- QueuedResponse.MAX_DELAY, 500 ms. -/
def MAX_DELAY : Int := 500

/-- The QueuedResponse constructor, creating the entry at epoch time now. -/
def mkQueuedResponse (packet : Pkt) (interfaceName : String) (now : Int) : QueuedResponse :=
  { packet := packet, interfaceName := interfaceName, timeOfCreation := now }

/-- QueuedResponse.calculateRandomDelay at epoch time now; the source draws
delay as random()*100+20, i.e. a value in [20, 120), which is passed here
as a parameter. -/
def calculateRandomDelay (q : QueuedResponse) (now delay : Int) : QueuedResponse :=
  { q with delay := delay, estimatedTimeToBeSent := now + delay }

/-- QueuedResponse.scheduleResponse: a (detached) timer is armed. -/
def scheduleResponse (q : QueuedResponse) : QueuedResponse :=
  { q with timerSet := true }

/-- QueuedResponse.delayWouldBeInTimelyManner. -/
def delayWouldBeInTimelyManner (self next : QueuedResponse) : Bool :=
  decide (next.estimatedTimeToBeSent - self.timeOfCreation ≤ MAX_DELAY)

/-- QueuedResponse.combineWithNextPacketIfPossible: the timeliness precheck
is commented out in the source (the caller is expected to have run it); the
entries must share an interface and the packets must be combinable; on
success the next entry absorbs our packet, its creation time becomes the
minimum of the two, our timer is cleared and we are marked delayed.
Returns (combined?, self after, next after). -/
def combineWithNextPacketIfPossible (self next : QueuedResponse) (cap : Nat) :
    Bool × QueuedResponse × QueuedResponse :=
  if self.interfaceName ≠ next.interfaceName then (false, self, next)
  else
    let r := canBeCombinedWith next.packet self.packet cap
    let self1 := { self with packet := r.2.2 }
    let next1 := { next with packet := r.2.1 }
    if r.1 = false then (false, self1, next1)
    else
      let next2 := { next1 with packet := combineWith next1.packet self1.packet,
                                timeOfCreation := min self1.timeOfCreation next1.timeOfCreation }
      let self2 := { self1 with timerSet := false, delayed := true }
      (true, self2, next2)

/-- Modelled from the spec: the responder (not among the sources in scope)
attempts the merge only when delayWouldBeInTimelyManner holds, i.e. when
merging would not push the earliest entry past MAX_DELAY from its creation
(spec section 4.4). -/
def attemptMerge (self next : QueuedResponse) (cap : Nat) :
    Bool × QueuedResponse × QueuedResponse :=
  if delayWouldBeInTimelyManner self next then combineWithNextPacketIfPossible self next cap
  else (false, self, next)

/-- Modelled from the spec: on timer fire the responder hands the packet to
the transport only when the entry was not cancelled (spec section 4.4 and
invariant 4). -/
def specDispatch (q : QueuedResponse) : Option Pkt :=
  if q.delayed then none else some q.packet

/-- Sample queued responses for the witnesses: same interface, compatible
headers, the second entry created 10 ms after the first and scheduled at
100 ms. -/
def sampleQueuedA : QueuedResponse :=
  { packet := samplePktA, interfaceName := "en0", timeOfCreation := 0,
    estimatedTimeToBeSent := 40, delay := 40, timerSet := true }

def sampleQueuedB : QueuedResponse :=
  { packet := samplePktB, interfaceName := "en0", timeOfCreation := 10,
    estimatedTimeToBeSent := 100, delay := 90 }

/-- C4: a freshly enqueued entry (creation time now, delay drawn in
[20, 120)) is scheduled within MAX_DELAY of its creation; and a merge
performed through the responder (which prechecks delayWouldBeInTimelyManner)
succeeds only when the earliest entry would still be sent within MAX_DELAY
of its creation, and leaves the surviving entry scheduled within MAX_DELAY
of its (merged, earliest) creation time, its send time unchanged — so every
dispatched entry fires at most MAX_DELAY after its time of creation. -/
theorem queuedResponse_delay_bound :
    (∀ (p : Pkt) (ifn : String) (now d : Int), 20 ≤ d → d ≤ 120 →
      (calculateRandomDelay (mkQueuedResponse p ifn now) now d).estimatedTimeToBeSent
          - (calculateRandomDelay (mkQueuedResponse p ifn now) now d).timeOfCreation
        ≤ MAX_DELAY) ∧
    (∀ (a b : QueuedResponse) (cap : Nat),
      b.estimatedTimeToBeSent - b.timeOfCreation ≤ MAX_DELAY →
      (attemptMerge a b cap).1 = true →
      b.estimatedTimeToBeSent - a.timeOfCreation ≤ MAX_DELAY ∧
      (attemptMerge a b cap).2.2.estimatedTimeToBeSent
          - (attemptMerge a b cap).2.2.timeOfCreation ≤ MAX_DELAY ∧
      (attemptMerge a b cap).2.2.estimatedTimeToBeSent = b.estimatedTimeToBeSent) := by
  constructor
  · intro p ifn now d h20 h120
    simp only [calculateRandomDelay, mkQueuedResponse, MAX_DELAY]
    omega
  · intro a b cap hb h
    unfold attemptMerge at h ⊢
    by_cases hg : delayWouldBeInTimelyManner a b = true
    · have hguard : b.estimatedTimeToBeSent - a.timeOfCreation ≤ MAX_DELAY := by
        have := hg
        unfold delayWouldBeInTimelyManner at this
        simpa using this
      rw [if_pos hg] at h ⊢
      unfold combineWithNextPacketIfPossible at h ⊢
      by_cases hif : a.interfaceName ≠ b.interfaceName
      · rw [if_pos hif] at h
        exact absurd h (by simp)
      · rw [if_neg hif] at h ⊢
        dsimp only at h ⊢
        by_cases hr : (canBeCombinedWith b.packet a.packet cap).1 = false
        · rw [if_pos hr] at h
          exact absurd h (by simp)
        · rw [if_neg hr] at h ⊢
          dsimp only
          refine ⟨hguard, ?_, rfl⟩
          simp only [MAX_DELAY] at hguard hb ⊢
          omega
    · rw [if_neg hg] at h
      exact absurd h (by simp)

theorem queuedResponse_delay_bound_witness :
    ((20 : Int) ≤ 40 ∧ (40 : Int) ≤ 120 ∧
      (calculateRandomDelay (mkQueuedResponse samplePktA "en0" 7) 7 40).estimatedTimeToBeSent
          - (calculateRandomDelay (mkQueuedResponse samplePktA "en0" 7) 7 40).timeOfCreation
        ≤ MAX_DELAY) ∧
    (sampleQueuedB.estimatedTimeToBeSent - sampleQueuedB.timeOfCreation ≤ MAX_DELAY ∧
      (attemptMerge sampleQueuedA sampleQueuedB 1440).1 = true ∧
      sampleQueuedB.estimatedTimeToBeSent - sampleQueuedA.timeOfCreation ≤ MAX_DELAY ∧
      (attemptMerge sampleQueuedA sampleQueuedB 1440).2.2.estimatedTimeToBeSent
          - (attemptMerge sampleQueuedA sampleQueuedB 1440).2.2.timeOfCreation ≤ MAX_DELAY ∧
      (attemptMerge sampleQueuedA sampleQueuedB 1440).2.2.estimatedTimeToBeSent
          = sampleQueuedB.estimatedTimeToBeSent) :=
  ⟨⟨by decide, by decide,
      queuedResponse_delay_bound.1 samplePktA "en0" 7 40 (by decide) (by decide)⟩,
    by decide, by decide,
    (queuedResponse_delay_bound.2 sampleQueuedA sampleQueuedB 1440 (by decide) (by decide)).1,
    (queuedResponse_delay_bound.2 sampleQueuedA sampleQueuedB 1440 (by decide) (by decide)).2.1,
    (queuedResponse_delay_bound.2 sampleQueuedA sampleQueuedB 1440 (by decide) (by decide)).2.2⟩

/-- C6: when combineWithNextPacketIfPossible returns true, the earlier
entry's four record sections are appended onto the later entry's packet,
the later entry's time of creation becomes the minimum of the two creation
times, and the earlier entry's timer is cleared and the entry is marked
delayed, so the dispatch rule never transmits it. -/
theorem combineWithNextPacket_effects (a b : QueuedResponse) (cap : Nat)
    (h : (combineWithNextPacketIfPossible a b cap).1 = true) :
    (combineWithNextPacketIfPossible a b cap).2.2.packet.questions
        = b.packet.questions ++ a.packet.questions ∧
    (combineWithNextPacketIfPossible a b cap).2.2.packet.answers
        = b.packet.answers ++ a.packet.answers ∧
    (combineWithNextPacketIfPossible a b cap).2.2.packet.authorities
        = b.packet.authorities ++ a.packet.authorities ∧
    (combineWithNextPacketIfPossible a b cap).2.2.packet.additionals
        = b.packet.additionals ++ a.packet.additionals ∧
    (combineWithNextPacketIfPossible a b cap).2.2.timeOfCreation
        = min a.timeOfCreation b.timeOfCreation ∧
    (combineWithNextPacketIfPossible a b cap).2.1.timerSet = false ∧
    (combineWithNextPacketIfPossible a b cap).2.1.delayed = true ∧
    specDispatch (combineWithNextPacketIfPossible a b cap).2.1 = none := by
  unfold combineWithNextPacketIfPossible at h ⊢
  by_cases hif : a.interfaceName ≠ b.interfaceName
  · rw [if_pos hif] at h
    exact absurd h (by simp)
  · rw [if_neg hif] at h ⊢
    dsimp only at h ⊢
    by_cases hr : (canBeCombinedWith b.packet a.packet cap).1 = false
    · rw [if_pos hr] at h
      exact absurd h (by simp)
    · rw [if_neg hr] at h ⊢
      dsimp only
      refine ⟨?_, ?_, ?_, ?_, rfl, rfl, rfl, ?_⟩
      · rw [(combineWith_sections _ _).1,
          (canBeCombinedWith_sections b.packet a.packet cap).1.1,
          (canBeCombinedWith_sections b.packet a.packet cap).2.1]
      · rw [(combineWith_sections _ _).2.1,
          (canBeCombinedWith_sections b.packet a.packet cap).1.2.1,
          (canBeCombinedWith_sections b.packet a.packet cap).2.2.1]
      · rw [(combineWith_sections _ _).2.2.1,
          (canBeCombinedWith_sections b.packet a.packet cap).1.2.2.1,
          (canBeCombinedWith_sections b.packet a.packet cap).2.2.2.1]
      · rw [(combineWith_sections _ _).2.2.2.1,
          (canBeCombinedWith_sections b.packet a.packet cap).1.2.2.2,
          (canBeCombinedWith_sections b.packet a.packet cap).2.2.2.2]
      · simp [specDispatch]

theorem combineWithNextPacket_effects_witness :
    (combineWithNextPacketIfPossible sampleQueuedA sampleQueuedB 1440).1 = true ∧
    ((combineWithNextPacketIfPossible sampleQueuedA sampleQueuedB 1440).2.2.packet.answers
        = sampleQueuedB.packet.answers ++ sampleQueuedA.packet.answers ∧
      (combineWithNextPacketIfPossible sampleQueuedA sampleQueuedB 1440).2.2.timeOfCreation
        = min sampleQueuedA.timeOfCreation sampleQueuedB.timeOfCreation ∧
      (combineWithNextPacketIfPossible sampleQueuedA sampleQueuedB 1440).2.1.delayed = true ∧
      specDispatch (combineWithNextPacketIfPossible sampleQueuedA sampleQueuedB 1440).2.1
        = none) :=
  ⟨by decide,
    (combineWithNextPacket_effects sampleQueuedA sampleQueuedB 1440 (by decide)).2.1,
    (combineWithNextPacket_effects sampleQueuedA sampleQueuedB 1440 (by decide)).2.2.2.2.1,
    (combineWithNextPacket_effects sampleQueuedA sampleQueuedB 1440 (by decide)).2.2.2.2.2.2.1,
    (combineWithNextPacket_effects sampleQueuedA sampleQueuedB 1440 (by decide)).2.2.2.2.2.2.2⟩

/-- C1: the claim asserts that a query with one question and known-answers
whose total size exceeds the UDP payload cap yields more than one packet,
TC set on every non-final packet, and the sorted answers distributed over
the packets.  The code instead never returns: with one question of
uncompressed length 20 and two known-answers of length 1500 at cap 1440
(total 3032 > 1440) the known-answer loop gets stuck — the size checks are
made against the first packet and the break never advances the index — so
createDNSQueryPackets diverges for every amount of fuel. -/
theorem createDNSQueryPackets_split_diverges :
    ∀ fuel : Nat,
      createDNSQueryPackets (QueryDef.query [⟨20, 20⟩] [⟨1500, 1500⟩, ⟨1500, 1500⟩]) 1440 fuel
        = none := by
  intro fuel
  have hunfold :
      createDNSQueryPackets (QueryDef.query [⟨20, 20⟩] [⟨1500, 1500⟩, ⟨1500, 1500⟩]) 1440 fuel =
        (queryLoop 1440 [⟨1500, 1500⟩, ⟨1500, 1500⟩] fuel
            { main := (getEstimatedEncodingLength (mkQueryPkt [⟨20, 20⟩])).2,
              done := [], cur := none, i := 0 }).map
          (fun s => Except.ok (s.main :: (s.done ++ s.cur.toList))) := rfl
  rw [hunfold, queryLoop_stuck 1440 _ fuel _ (by decide) (by decide)]
  rfl

/-- C2: the claim asserts termination with every known-answer appearing
exactly once.  With no questions, a single known-answer of length 200 and
cap 100 (the questions-only packet, 12 bytes, fits) the loop never
terminates, and the trace additionally shows the same answer being appended
to the first packet once per spin of the while loop (it already appears
twice after the second pass), refuting the appears-exactly-once part for
any hypothetical limit. -/
theorem createDNSQueryPackets_not_terminating :
    (∀ fuel : Nat,
      createDNSQueryPackets (QueryDef.query [] [⟨200, 200⟩]) 100 fuel = none) ∧
    (let s0 : QState := { main := (getEstimatedEncodingLength (mkQueryPkt [])).2,
                          done := [], cur := none, i := 0 };
     let s2 := innerLoopF 100 [⟨200, 200⟩] 1 (truncateAndNew (innerLoopF 100 [⟨200, 200⟩] 1 s0));
     s2.main.answers = [⟨200, 200⟩, ⟨200, 200⟩] ∧ s2.i = 0) := by
  constructor
  · intro fuel
    have hunfold :
        createDNSQueryPackets (QueryDef.query [] [⟨200, 200⟩]) 100 fuel =
          (queryLoop 100 [⟨200, 200⟩] fuel
              { main := (getEstimatedEncodingLength (mkQueryPkt [])).2,
                done := [], cur := none, i := 0 }).map
            (fun s => Except.ok (s.main :: (s.done ++ s.cur.toList))) := rfl
    rw [hunfold, queryLoop_stuck 100 _ fuel _ (by decide) (by decide)]
    rfl
  · decide

/-- C3: the claim asserts that an oversize known-answer met with an empty
current packet is added to that current packet and emitted alone.  With one
question of length 20, a single known-answer of length 1500 and cap 1440,
the trace shows the carve-out branch firing while the current packet is the
fresh (empty) continuation packet, yet appending the record to the first
packet — which still carries the question, so the record is neither on the
current packet nor alone — and the call then never returns at all. -/
theorem createDNSQueryPackets_carveout_mistargets :
    (let s0 : QState := { main := (getEstimatedEncodingLength (mkQueryPkt [⟨20, 20⟩])).2,
                          done := [], cur := none, i := 0 };
     let s1 := innerLoopF 1440 [⟨1500, 1500⟩] 1 s0;
     let s2 := innerLoopF 1440 [⟨1500, 1500⟩] 1 (truncateAndNew s1);
     s1.main.answers = [] ∧ s1.i = 0 ∧
       (truncateAndNew s1).current.questions = [] ∧ (truncateAndNew s1).current.answers = [] ∧
       s2.main.questions = [⟨20, 20⟩] ∧ s2.main.answers = [⟨1500, 1500⟩] ∧
       s2.cur = some newQueryPacket) ∧
    (∀ fuel : Nat,
      createDNSQueryPackets (QueryDef.query [⟨20, 20⟩] [⟨1500, 1500⟩]) 1440 fuel = none) := by
  constructor
  · decide
  · intro fuel
    have hunfold :
        createDNSQueryPackets (QueryDef.query [⟨20, 20⟩] [⟨1500, 1500⟩]) 1440 fuel =
          (queryLoop 1440 [⟨1500, 1500⟩] fuel
              { main := (getEstimatedEncodingLength (mkQueryPkt [⟨20, 20⟩])).2,
                done := [], cur := none, i := 0 }).map
            (fun s => Except.ok (s.main :: (s.done ++ s.cur.toList))) := rfl
    rw [hunfold, queryLoop_stuck 1440 _ fuel _ (by decide) (by decide)]
    rfl

/-! The Prober.  The Prober class itself is among the sources in scope; its
collaborators (dns-equal, util/tiebreaking, CiaoService, MDNSServer) are
not and are modelled from the spec. -/

/-- Modelled from the spec: a record as used by the tiebreaking algorithm —
name plus class, type and the canonical-form rdata bytes (the raw
representation the Prober obtains via an encode/decode round trip). -/
structure TRec where
  name : String
  rclass : Nat
  rtype : Nat
  rdata : List Nat
deriving DecidableEq

/-- Modelled from the spec: util/dns-equal compares DNS names
case-insensitively. -/
def dnsEqual (a b : String) : Bool :=
  decide (a.data.map Char.toLower = b.data.map Char.toLower)

/-- Byte-wise lexicographic comparison of rdata, a missing byte comparing
before any present byte. -/
def compareBytes : List Nat → List Nat → Ordering
  | [], [] => .eq
  | [], _ :: _ => .lt
  | _ :: _, [] => .gt
  | a :: as, b :: bs => (compare a b).then (compareBytes as bs)

/-- Modelled from the spec: the canonical record order of
util/tiebreaking.ts — by class, then type, then rdata bytes in canonical
form. -/
def rrComparator (a b : TRec) : Ordering :=
  ((compare a.rclass b.rclass).then (compare a.rtype b.rtype)).then
    (compareBytes a.rdata b.rdata)

/-- Stable sort by the canonical record order (JS Array.prototype.sort is
stable). -/
def insertByComparator (r : TRec) : List TRec → List TRec
  | [] => [r]
  | x :: xs =>
    if rrComparator x r ≠ Ordering.gt then x :: insertByComparator r xs else r :: x :: xs

def sortRecords (l : List TRec) : List TRec :=
  l.foldl (fun acc r => insertByComparator r acc) []

inductive TiebreakingResult
  | host
  | opponent
  | tie
deriving DecidableEq

/-- Modelled from the spec: util/tiebreaking.runTiebreaking walks the two
sorted record lists; the first differing record decides, the smaller record
winning for its holder; when one side runs out of records while the other
still has some, the side with records remaining wins; identical sequences
mean there is no conflict. -/
def runTiebreaking : List TRec → List TRec → TiebreakingResult
  | [], [] => .tie
  | _ :: _, [] => .host
  | [], _ :: _ => .opponent
  | a :: as, b :: bs =>
    match rrComparator a b with
    | .eq => runTiebreaking as bs
    | .lt => .host
    | .gt => .opponent

/-- A question of an (inbound or probe) packet, as far as the Prober looks
at it: name, qtype and the unicast-response flag. -/
structure PQuestion where
  name : String
  qtype : Nat
  unicastResponseFlag : Bool
deriving DecidableEq

/-- Probe questions carry qtype ANY (255) and the unicast-response flag. -/
def probeQuestion (n : String) : PQuestion := ⟨n, 255, true⟩

/-- An inbound decoded packet as far as the Prober inspects it. -/
structure InPacket where
  questions : List PQuestion
  answers : List TRec
  authorities : List TRec
  additionals : List TRec
deriving DecidableEq

/-- The externally visible effects of Prober methods: sending a probe query
(server.sendQuery), asking the service to bump its name
(service.incrementName), resolving the probe promise and rejecting it with
a timeout. -/
inductive Action
  | sendQuery (questions : List PQuestion) (authorities : List TRec)
  | incrementName
  | resolve
  | reject
deriving DecidableEq

/-- The mutable state of the Prober class: the (sorted) own records built
on the first probe, the probing start time, the armed timer (as the
absolute epoch-millisecond time it will fire, always targeting
sendProbeRequest), and the sentFirstProbeQuery / sentQueries fields. -/
structure Prober where
  records : List TRec
  startTime : Int
  timer : Option Int
  sentFirstProbeQuery : Bool
  sentQueries : Nat
deriving DecidableEq

/-- Modelled from the spec: the CiaoService collaborator, abstracted as the
FQDN, host name and published records as functions of how often
incrementName has been called (the numeric-suffix counter). -/
structure ProbeService where
  getFQDN : Nat → String
  getHostname : Nat → String
  recordsOf : Nat → List TRec

/-- A Prober together with its service: suffix counts the incrementName
calls performed so far. -/
structure ProberWorld where
  svc : ProbeService
  suffix : Nat
  prober : Prober

def ProberWorld.fqdn (w : ProberWorld) : String := w.svc.getFQDN w.suffix

def ProberWorld.hostname (w : ProberWorld) : String := w.svc.getHostname w.suffix

/-- The name test the Prober applies to inbound records and questions:
dns-equal against the service FQDN or the host name. -/
def matchesOwnName (w : ProberWorld) (n : String) : Bool :=
  dnsEqual n w.fqdn || dnsEqual n w.hostname

/-- Prober.probe: remember the start time and arm the initial timer; the
source draws the initial delay as random()*PROBE_INTERVAL, a value in
[0, 250), so the timer fires at now plus that delay. -/
def probeStart (now fireAt : Int) : Prober :=
  { records := [], startTime := now, timer := some fireAt,
    sentFirstProbeQuery := false, sentQueries := 0 }

/-- Prober.endProbing: clear the timer, reset sentFirstProbeQuery and
sentQueries, and resolve the promise on success. -/
def endProbing (p : Prober) (success : Bool) : Prober × List Action :=
  let p := { p with timer := none, sentFirstProbeQuery := false, sentQueries := 0 }
  if success then (p, [Action.resolve]) else (p, [])

/-- Prober.sendProbeRequest at epoch time now: on the first query the own
records are (re)built from the service and sorted; three sent queries mean
success; more than 60000 ms since the probing start means timeout
(endProbing plus a rejection); otherwise the probe query is sent — two ANY
questions with the unicast-response flag for the FQDN and the host name,
the own records as authorities.  The none result models the source
assertion failing on an empty record list. -/
def sendProbeRequest (w : ProberWorld) (now : Int) : Option (ProberWorld × List Action) :=
  let p := w.prober
  let p := if p.sentQueries = 0 then
      { p with records := sortRecords (w.svc.recordsOf w.suffix) }
    else p
  if p.sentQueries ≥ 3 then
    let r := endProbing p true
    some ({ w with prober := r.1 }, r.2)
  else if now - p.startTime > 60000 then
    let r := endProbing p false
    some ({ w with prober := r.1 }, r.2 ++ [Action.reject])
  else if p.records.isEmpty then none
  else
    some ({ w with prober := p },
      [Action.sendQuery
        [probeQuestion (w.svc.getFQDN w.suffix), probeQuestion (w.svc.getHostname w.suffix)]
        p.records])

/-- The send-complete callback passed to server.sendQuery, running at epoch
time now: mark the first probe sent, count the query and arm the
PROBE_INTERVAL (250 ms) timer. -/
def sendCallback (w : ProberWorld) (now : Int) : ProberWorld :=
  { w with prober :=
      { w.prober with
          sentFirstProbeQuery := true,
          sentQueries := w.prober.sentQueries + 1,
          timer := some (now + 250) } }

/-- Prober.handleResponse: ignored before the first probe went out;
otherwise a response whose answers or additionals carry our FQDN or host
name is a conflict — end probing, ask the service to increment its name and
synchronously send the next (first) probe. -/
def handleResponse (w : ProberWorld) (now : Int) (pkt : InPacket) :
    Option (ProberWorld × List Action) :=
  if w.prober.sentFirstProbeQuery = false then some (w, [])
  else
    let containsAnswer := pkt.answers.any (fun r => matchesOwnName w r.name)
        || pkt.additionals.any (fun r => matchesOwnName w r.name)
    if containsAnswer then
      let r := endProbing w.prober false
      let w1 : ProberWorld := { w with suffix := w.suffix + 1, prober := r.1 }
      match sendProbeRequest w1 now with
      | none => none
      | some (w2, acts) => some (w2, Action.incrementName :: acts)
    else some (w, [])

/-- Prober.doTiebreaking: a conflict exists when the query has no
authorities at all or some authority carries our name; tiebreaking is then
run between our (already sorted) records and the opponent's sorted
authorities; losing ends the current probing and arms a 1000 ms backoff
timer (the name is left untouched). -/
def doTiebreaking (w : ProberWorld) (now : Int) (pkt : InPacket) : ProberWorld × List Action :=
  if w.prober.sentFirstProbeQuery = false then (w, [])
  else
    let conflict := pkt.authorities.isEmpty
        || pkt.authorities.any (fun r => matchesOwnName w r.name)
    if conflict = false then (w, [])
    else
      let answers := w.prober.records
      let opponent := sortRecords pkt.authorities
      match runTiebreaking answers opponent with
      | .host => (w, [])
      | .opponent =>
        let r := endProbing w.prober false
        ({ w with prober := { r.1 with timer := some (now + 1000) } }, [])
      | .tie => (w, [])

/-- Prober.handleQuery: ignored before the first probe went out; a query
whose question section carries our FQDN or host name triggers
doTiebreaking. -/
def handleQuery (w : ProberWorld) (now : Int) (pkt : InPacket) : ProberWorld × List Action :=
  if w.prober.sentFirstProbeQuery = false then (w, [])
  else
    let needsTiebreaking := pkt.questions.any (fun q => matchesOwnName w q.name)
    if needsTiebreaking then doTiebreaking w now pkt else (w, [])

/-- Fire the armed timer (all Prober timers target sendProbeRequest): runs
sendProbeRequest at the stored fire time and reports that time. -/
def fireTimer (w : ProberWorld) : Option (Int × ProberWorld × List Action) :=
  match w.prober.timer with
  | none => none
  | some t =>
    (sendProbeRequest { w with prober := { w.prober with timer := none } } t).map
      (fun r => (t, r.1, r.2))

/-- The event-loop schedule of a prober that receives no inbound traffic:
the initial timer fires, the send completes at c1, the 250 ms timer fires,
the send completes at c2, and so on; each entry of the returned list pairs
the fire time with the actions of that callback. -/
def runQuiet (w0 : ProberWorld) (c1 c2 c3 : Int) :
    Option (List (Int × List Action) × ProberWorld) := do
  let (t1, w1, a1) ← fireTimer w0
  let w1c := sendCallback w1 c1
  let (t2, w2, a2) ← fireTimer w1c
  let w2c := sendCallback w2 c2
  let (t3, w3, a3) ← fireTimer w2c
  let w3c := sendCallback w3 c3
  let (t4, w4, a4) ← fireTimer w3c
  some ([(t1, a1), (t2, a2), (t3, a3), (t4, a4)], w4)

theorem sendProbeRequest_first (w : ProberWorld) (now : Int)
    (h0 : w.prober.sentQueries = 0)
    (ht : now - w.prober.startTime ≤ 60000)
    (hr : sortRecords (w.svc.recordsOf w.suffix) ≠ []) :
    sendProbeRequest w now =
      some ({ w with prober :=
          { w.prober with records := sortRecords (w.svc.recordsOf w.suffix) } },
        [Action.sendQuery
          [probeQuestion (w.svc.getFQDN w.suffix), probeQuestion (w.svc.getHostname w.suffix)]
          (sortRecords (w.svc.recordsOf w.suffix))]) := by
  have h3' : ¬(w.prober.sentQueries ≥ 3) := by omega
  have ht' : ¬(now - w.prober.startTime > 60000) := by omega
  have hr' : (sortRecords (w.svc.recordsOf w.suffix)).isEmpty = false := by
    simp only [List.isEmpty_eq_false]; exact hr
  unfold sendProbeRequest
  simp [h0, h3', ht', hr']

theorem sendProbeRequest_again (w : ProberWorld) (now : Int)
    (h0 : w.prober.sentQueries ≠ 0) (h3 : w.prober.sentQueries < 3)
    (ht : now - w.prober.startTime ≤ 60000)
    (hr : w.prober.records ≠ []) :
    sendProbeRequest w now =
      some (w,
        [Action.sendQuery
          [probeQuestion (w.svc.getFQDN w.suffix), probeQuestion (w.svc.getHostname w.suffix)]
          w.prober.records]) := by
  have h3' : ¬(w.prober.sentQueries ≥ 3) := by omega
  have ht' : ¬(now - w.prober.startTime > 60000) := by omega
  have hr' : w.prober.records.isEmpty = false := by
    simp only [List.isEmpty_eq_false]; exact hr
  unfold sendProbeRequest
  simp [h0, h3', ht', hr']

theorem sendProbeRequest_success (w : ProberWorld) (now : Int)
    (h3 : w.prober.sentQueries ≥ 3) :
    sendProbeRequest w now =
      some ({ w with prober :=
          { w.prober with timer := none, sentFirstProbeQuery := false, sentQueries := 0 } },
        [Action.resolve]) := by
  have h0' : ¬(w.prober.sentQueries = 0) := by omega
  unfold sendProbeRequest
  simp [h0', h3, endProbing]

/-- C10: when a probe timer fires with fewer than three probes sent and
more than 60 seconds elapsed since probing started, the Prober fails: the
promise is rejected with the timeout (and nothing else — in particular no
probe query is sent), the timer is cleared, the counters reset, the service
name untouched. -/
theorem prober_timeout (w : ProberWorld) (now : Int)
    (h3 : w.prober.sentQueries < 3)
    (ht : now - w.prober.startTime > 60000) :
    (sendProbeRequest w now).map (fun r => r.2) = some [Action.reject] ∧
    (sendProbeRequest w now).map (fun r => r.1.prober.timer) = some none ∧
    (sendProbeRequest w now).map (fun r => r.1.prober.sentQueries) = some 0 ∧
    (sendProbeRequest w now).map (fun r => r.1.prober.sentFirstProbeQuery) = some false ∧
    (sendProbeRequest w now).map (fun r => r.1.prober.startTime) = some w.prober.startTime ∧
    (sendProbeRequest w now).map (fun r => r.1.suffix) = some w.suffix := by
  have h3' : ¬(w.prober.sentQueries ≥ 3) := by omega
  unfold sendProbeRequest
  by_cases h0 : w.prober.sentQueries = 0 <;>
    simp [h0, h3', ht, endProbing]

/-- Sample records and service used by the Prober witnesses and
counterexamples. -/
def tieRecHost : TRec := ⟨"a._hap._tcp.local", 1, 33, [5]⟩

def tieRecOtherSmall : TRec := ⟨"other.local", 1, 33, [3]⟩

def tieRecMatchSmall : TRec := ⟨"a._hap._tcp.local", 1, 33, [3]⟩

def sampleService : ProbeService :=
  ⟨fun _ => "a._hap._tcp.local", fun _ => "host.local", fun _ => [tieRecHost]⟩

/-- A prober mid-way through probing: two probes sent, the third scheduled. -/
def midProbeWorld : ProberWorld :=
  ⟨sampleService, 0,
    { records := [tieRecHost], startTime := 0, timer := some 700,
      sentFirstProbeQuery := true, sentQueries := 2 }⟩

theorem prober_timeout_witness :
    (midProbeWorld.prober.sentQueries < 3 ∧ (70000 : Int) - midProbeWorld.prober.startTime > 60000) ∧
    (sendProbeRequest midProbeWorld 70000).map (fun r => r.2) = some [Action.reject] ∧
    (sendProbeRequest midProbeWorld 70000).map (fun r => r.1.prober.timer) = some none ∧
    (sendProbeRequest midProbeWorld 70000).map (fun r => r.1.suffix) = some midProbeWorld.suffix :=
  ⟨⟨by decide, by decide⟩,
    (prober_timeout midProbeWorld 70000 (by decide) (by decide)).1,
    (prober_timeout midProbeWorld 70000 (by decide) (by decide)).2.1,
    (prober_timeout midProbeWorld 70000 (by decide) (by decide)).2.2.2.2.2⟩

/-- C7 counterexample packet: the question section matches our FQDN
case-insensitively, the authority section is non-empty, and tiebreaking
against its sorted authorities would be lost by us — yet none of the
authority names matches ours. -/
def skippedTiebreakQuery : InPacket :=
  ⟨[⟨"A._HAP._TCP.local", 255, false⟩], [], [tieRecOtherSmall], []⟩

/-- C7 counterexample: an inbound query arriving after the first probe,
whose question name equals the service FQDN (case-insensitively), carrying
a non-empty authority section against which the prober loses the
tiebreaking comparison — yet handleQuery leaves the prober completely
untouched (no cancel, no 1-second backoff timer), because the source only
runs tiebreaking when some authority record name also matches.  This
refutes the claim as stated. -/
theorem prober_tiebreak_skipped_cex :
    midProbeWorld.prober.sentFirstProbeQuery = true ∧
    skippedTiebreakQuery.questions.any (fun q => matchesOwnName midProbeWorld q.name) = true ∧
    skippedTiebreakQuery.authorities ≠ [] ∧
    runTiebreaking midProbeWorld.prober.records (sortRecords skippedTiebreakQuery.authorities)
      = TiebreakingResult.opponent ∧
    handleQuery midProbeWorld 500 skippedTiebreakQuery = (midProbeWorld, []) :=
  ⟨rfl, by decide, by decide, by decide, rfl⟩

/-- C7 (amended): for an inbound query received after the first probe whose
question name matches the service FQDN or host name, and whose authority
section is either empty or carries at least one record name matching ours
(the conflict test of the source), losing the tiebreaking comparison
cancels the current probing (counters reset) and arms a 1000 ms backoff
timer targeting the probe sender, leaving the service name (suffix)
untouched. -/
theorem prober_tiebreak_loss_backoff (w : ProberWorld) (now : Int) (pkt : InPacket)
    (h1 : w.prober.sentFirstProbeQuery = true)
    (h2 : pkt.questions.any (fun q => matchesOwnName w q.name) = true)
    (h3 : pkt.authorities.isEmpty = true
        ∨ pkt.authorities.any (fun r => matchesOwnName w r.name) = true)
    (h4 : runTiebreaking w.prober.records (sortRecords pkt.authorities)
        = TiebreakingResult.opponent) :
    handleQuery w now pkt =
      ({ w with prober :=
          { records := w.prober.records, startTime := w.prober.startTime,
            timer := some (now + 1000), sentFirstProbeQuery := false, sentQueries := 0 } },
        []) := by
  have hconf : (pkt.authorities.isEmpty
      || pkt.authorities.any (fun r => matchesOwnName w r.name)) = true := by
    rcases h3 with h | h <;> simp [h]
  unfold handleQuery doTiebreaking
  simp [h1, h2, hconf, h4, endProbing]

/-- C7 witness packet: identical situation but with the lone (losing)
authority record carrying our name, so the conflict test passes. -/
def losingTiebreakQuery : InPacket :=
  ⟨[⟨"a._hap._tcp.local", 255, true⟩], [], [tieRecMatchSmall], []⟩

theorem prober_tiebreak_loss_backoff_witness :
    (midProbeWorld.prober.sentFirstProbeQuery = true ∧
      losingTiebreakQuery.questions.any (fun q => matchesOwnName midProbeWorld q.name) = true ∧
      losingTiebreakQuery.authorities.any (fun r => matchesOwnName midProbeWorld r.name) = true ∧
      runTiebreaking midProbeWorld.prober.records (sortRecords losingTiebreakQuery.authorities)
        = TiebreakingResult.opponent) ∧
    handleQuery midProbeWorld 500 losingTiebreakQuery =
      ({ midProbeWorld with prober :=
          { records := midProbeWorld.prober.records,
            startTime := midProbeWorld.prober.startTime,
            timer := some (500 + 1000), sentFirstProbeQuery := false, sentQueries := 0 } },
        []) :=
  ⟨⟨rfl, by decide, by decide, by decide⟩,
    prober_tiebreak_loss_backoff midProbeWorld 500 losingTiebreakQuery rfl (by decide)
      (Or.inr (by decide)) (by decide)⟩

/-- C8 counterexample packet: a response answering our FQDN
(case-insensitively). -/
def conflictResponseLate : InPacket := ⟨[], [⟨"A._HAP._tcp.LOCAL", 1, 33, [9]⟩], [], []⟩

/-- C8 counterexample: a matching inbound response received after the first
probe — but more than 60 seconds after probing started — makes the prober
increment the name and then reject with the timeout instead of sending a
new first probe: the resulting action list carries no probe query,
refuting the claim as stated. -/
theorem prober_conflict_after_timeout_cex :
    midProbeWorld.prober.sentFirstProbeQuery = true ∧
    (conflictResponseLate.answers.any (fun r => matchesOwnName midProbeWorld r.name)
        || conflictResponseLate.additionals.any (fun r => matchesOwnName midProbeWorld r.name))
      = true ∧
    (handleResponse midProbeWorld 70000 conflictResponseLate).map (fun r => r.2)
      = some [Action.incrementName, Action.reject] :=
  ⟨rfl, by decide, rfl⟩

/-- C8 (amended): an inbound response received after the first probe whose
answers or additionals carry our FQDN or host name makes the prober ask the
service to increment its name, reset its counters and synchronously send a
new first probe for the bumped name with no timer in between — provided at
most 60 seconds have elapsed since probing started; and inbound responses
received before the first probe was sent are ignored entirely. -/
theorem prober_conflict_rename_restart :
    (∀ (w : ProberWorld) (now : Int) (pkt : InPacket),
      w.prober.sentFirstProbeQuery = true →
      (pkt.answers.any (fun r => matchesOwnName w r.name)
          || pkt.additionals.any (fun r => matchesOwnName w r.name)) = true →
      now - w.prober.startTime ≤ 60000 →
      sortRecords (w.svc.recordsOf (w.suffix + 1)) ≠ [] →
      handleResponse w now pkt = some
        ({ svc := w.svc, suffix := w.suffix + 1,
           prober := { records := sortRecords (w.svc.recordsOf (w.suffix + 1)),
                       startTime := w.prober.startTime, timer := none,
                       sentFirstProbeQuery := false, sentQueries := 0 } },
         [Action.incrementName,
          Action.sendQuery
            [probeQuestion (w.svc.getFQDN (w.suffix + 1)),
             probeQuestion (w.svc.getHostname (w.suffix + 1))]
            (sortRecords (w.svc.recordsOf (w.suffix + 1)))])) ∧
    (∀ (w : ProberWorld) (now : Int) (pkt : InPacket),
      w.prober.sentFirstProbeQuery = false →
      handleResponse w now pkt = some (w, [])) := by
  constructor
  · intro w now pkt h1 h2 ht hr
    have hsend := sendProbeRequest_first
      ({ w with
          suffix := w.suffix + 1,
          prober :=
            { w.prober with
                timer := none,
                sentFirstProbeQuery := false,
                sentQueries := 0 } })
      now rfl (by dsimp only; omega) (by dsimp only; exact hr)
    unfold handleResponse
    simp only [h1, Bool.true_eq_false, if_false, h2, if_true, endProbing, Bool.false_eq_true]
    rw [hsend]
  · intro w now pkt h
    unfold handleResponse
    simp [h]

/-- C8 witness packet: a response answering our FQDN, arriving in time. -/
def conflictResponseEarly : InPacket := ⟨[], [⟨"a._hap._tcp.local", 1, 33, [9]⟩], [], []⟩

theorem prober_conflict_rename_restart_witness :
    ((midProbeWorld.prober.sentFirstProbeQuery = true ∧
      (conflictResponseEarly.answers.any (fun r => matchesOwnName midProbeWorld r.name)
          || conflictResponseEarly.additionals.any
              (fun r => matchesOwnName midProbeWorld r.name)) = true ∧
      (500 : Int) - midProbeWorld.prober.startTime ≤ 60000 ∧
      sortRecords (midProbeWorld.svc.recordsOf (midProbeWorld.suffix + 1)) ≠ []) ∧
      handleResponse midProbeWorld 500 conflictResponseEarly = some
        ({ svc := midProbeWorld.svc, suffix := midProbeWorld.suffix + 1,
           prober := { records := sortRecords (midProbeWorld.svc.recordsOf (midProbeWorld.suffix + 1)),
                       startTime := midProbeWorld.prober.startTime, timer := none,
                       sentFirstProbeQuery := false, sentQueries := 0 } },
         [Action.incrementName,
          Action.sendQuery
            [probeQuestion (midProbeWorld.svc.getFQDN (midProbeWorld.suffix + 1)),
             probeQuestion (midProbeWorld.svc.getHostname (midProbeWorld.suffix + 1))]
            (sortRecords (midProbeWorld.svc.recordsOf (midProbeWorld.suffix + 1)))])) ∧
    handleResponse ⟨sampleService, 0, probeStart 0 100⟩ 50 conflictResponseEarly
      = some (⟨sampleService, 0, probeStart 0 100⟩, []) :=
  ⟨⟨⟨rfl, by decide, by decide, by decide⟩,
      prober_conflict_rename_restart.1 midProbeWorld 500 conflictResponseEarly rfl
        (by decide) (by decide) (by decide)⟩,
    prober_conflict_rename_restart.2 ⟨sampleService, 0, probeStart 0 100⟩ 50
      conflictResponseEarly rfl⟩

/-- The probe query action: the two ANY questions with the unicast-response
flag (service FQDN and host name, at name-suffix n) with the sorted own
records as authorities. -/
def probeQueryAction (svc : ProbeService) (n : Nat) : Action :=
  Action.sendQuery [probeQuestion (svc.getFQDN n), probeQuestion (svc.getHostname n)]
    (sortRecords (svc.recordsOf n))

/-- C9: a prober with no inbound traffic, started at t0 with initial delay
d0 drawn from [0, 250), whose three sends complete at c1, c2, c3, fires its
timers at t0+d0, c1+250, c2+250 and c3+250 — sending exactly three probe
queries, each non-initial one exactly 250 ms after the previous probe's
send-complete callback — and resolves (reports success) on the fourth fire,
after the third probe, provided everything happens within the 60 s probing
budget. -/
theorem prober_three_probes (svc : ProbeService) (t0 d0 c1 c2 c3 : Int)
    (hrec : sortRecords (svc.recordsOf 0) ≠ [])
    (hd0 : 0 ≤ d0) (hd0' : d0 < 250)
    (hc1 : t0 + d0 ≤ c1) (hc2 : c1 + 250 ≤ c2) (hc3 : c2 + 250 ≤ c3)
    (hbudget : c3 + 250 - t0 ≤ 60000) :
    runQuiet ⟨svc, 0, probeStart t0 (t0 + d0)⟩ c1 c2 c3 =
      some ([(t0 + d0, [probeQueryAction svc 0]), (c1 + 250, [probeQueryAction svc 0]),
             (c2 + 250, [probeQueryAction svc 0]), (c3 + 250, [Action.resolve])],
        ⟨svc, 0, { records := sortRecords (svc.recordsOf 0), startTime := t0, timer := none,
                   sentFirstProbeQuery := false, sentQueries := 0 }⟩) := by
  have h1 : fireTimer ⟨svc, 0, probeStart t0 (t0 + d0)⟩ =
      some (t0 + d0,
        ⟨svc, 0, { records := sortRecords (svc.recordsOf 0), startTime := t0, timer := none,
                   sentFirstProbeQuery := false, sentQueries := 0 }⟩,
        [probeQueryAction svc 0]) := by
    unfold fireTimer probeStart
    dsimp only
    rw [sendProbeRequest_first _ _ rfl (by dsimp only; omega) (by dsimp only; exact hrec)]
    rfl
  have h2 : fireTimer (sendCallback
        ⟨svc, 0, { records := sortRecords (svc.recordsOf 0), startTime := t0, timer := none,
                   sentFirstProbeQuery := false, sentQueries := 0 }⟩ c1) =
      some (c1 + 250,
        ⟨svc, 0, { records := sortRecords (svc.recordsOf 0), startTime := t0, timer := none,
                   sentFirstProbeQuery := true, sentQueries := 1 }⟩,
        [probeQueryAction svc 0]) := by
    unfold fireTimer sendCallback
    dsimp only
    rw [sendProbeRequest_again _ _ (by dsimp only; omega) (by dsimp only; omega)
      (by dsimp only; omega) (by dsimp only; exact hrec)]
    rfl
  have h3 : fireTimer (sendCallback
        ⟨svc, 0, { records := sortRecords (svc.recordsOf 0), startTime := t0, timer := none,
                   sentFirstProbeQuery := true, sentQueries := 1 }⟩ c2) =
      some (c2 + 250,
        ⟨svc, 0, { records := sortRecords (svc.recordsOf 0), startTime := t0, timer := none,
                   sentFirstProbeQuery := true, sentQueries := 2 }⟩,
        [probeQueryAction svc 0]) := by
    unfold fireTimer sendCallback
    dsimp only
    rw [sendProbeRequest_again _ _ (by dsimp only; omega) (by dsimp only; omega)
      (by dsimp only; omega) (by dsimp only; exact hrec)]
    rfl
  have h4 : fireTimer (sendCallback
        ⟨svc, 0, { records := sortRecords (svc.recordsOf 0), startTime := t0, timer := none,
                   sentFirstProbeQuery := true, sentQueries := 2 }⟩ c3) =
      some (c3 + 250,
        ⟨svc, 0, { records := sortRecords (svc.recordsOf 0), startTime := t0, timer := none,
                   sentFirstProbeQuery := false, sentQueries := 0 }⟩,
        [Action.resolve]) := by
    unfold fireTimer sendCallback
    dsimp only
    rw [sendProbeRequest_success _ _ (by dsimp only; omega)]
    rfl
  unfold runQuiet
  rw [h1]
  simp only [Option.bind_eq_bind, Option.some_bind]
  rw [h2]
  simp only [Option.some_bind]
  rw [h3]
  simp only [Option.some_bind]
  rw [h4]
  simp only [Option.some_bind]

theorem prober_three_probes_witness :
    (sortRecords (sampleService.recordsOf 0) ≠ [] ∧
      (0 : Int) ≤ 0 ∧ (0 : Int) < 250 ∧ (0 : Int) + 0 ≤ 10 ∧
      (10 : Int) + 250 ≤ 300 ∧ (300 : Int) + 250 ≤ 600 ∧
      (600 : Int) + 250 - 0 ≤ 60000) ∧
    runQuiet ⟨sampleService, 0, probeStart 0 (0 + 0)⟩ 10 300 600 =
      some ([(0 + 0, [probeQueryAction sampleService 0]),
             (10 + 250, [probeQueryAction sampleService 0]),
             (300 + 250, [probeQueryAction sampleService 0]),
             (600 + 250, [Action.resolve])],
        ⟨sampleService, 0,
          { records := sortRecords (sampleService.recordsOf 0), startTime := 0, timer := none,
            sentFirstProbeQuery := false, sentQueries := 0 }⟩) :=
  ⟨⟨by decide, by decide, by decide, by decide, by decide, by decide, by decide⟩,
    prober_three_probes sampleService 0 0 10 300 600 (by decide) (by decide) (by decide)
      (by decide) (by decide) (by decide) (by decide)⟩

end Ciao
